import Mathlib

/-!
Verification development for the interactive multi-model fact store
(`ingest_knowledge_interactive.py`).

The embedding models the core data and control flow of the script:

* JSON-like values (`JVal`) stand for Python objects read from import files
  and for ChromaDB metadata values.
* A `Collection` is the observable content of one ChromaDB collection:
  a list of `(id, document, metadata)` triples in insertion order.
* A `ModelSet` is the triple of collections opened by
  `get_all_collections_for_type` (bge-base, bge-large, e5-large, in that
  fixed order).
* Backend calls that can fail (`collection.add`) are driven by an explicit
  oracle `addOk : Nat → Bool` giving the outcome per fan-out position;
  an exception inside the fan-out loop aborts the loop, exactly as the
  single `try`/`except` around the loop does in the script.

String primitives are re-implemented over `String.data` so that all
definitions evaluate by kernel reduction: `pyLower` models `str.lower` on
the ASCII inputs used throughout, `strContains` models the Python `in`
substring test, `strEndsWith` models `str.endswith`.
-/

/-- Lowercase a single ASCII character, as `str.lower` does on ASCII input. -/
def lowerChar (c : Char) : Char :=
  if 65 ≤ c.toNat ∧ c.toNat ≤ 90 then Char.ofNat (c.toNat + 32) else c

/-- Model of Python `str.lower` (ASCII range; all strings in the script's
model names, modes and schema suffixes are ASCII). -/
def pyLower (s : String) : String := String.mk (s.data.map lowerChar)

/-- Infix test on character lists (substring containment). -/
def listIsInfixOf (pat : List Char) : List Char → Bool
  | [] => pat.isEmpty
  | h :: t => pat.isPrefixOf (h :: t) || listIsInfixOf pat t

/-- Model of the Python substring test `pat in s`. -/
def strContains (s pat : String) : Bool := listIsInfixOf pat.data s.data

/-- Model of Python `s.endswith(suffix)`. -/
def strEndsWith (s sfx : String) : Bool := sfx.data.reverse.isPrefixOf s.data.reverse

/-- JSON-like values: the shape of data loaded with `json.load` from an
input file, and of metadata values returned by the backend. -/
inductive JVal where
  | jstr : String → JVal
  | jnum : Int → JVal
  | jbool : Bool → JVal
  | jnull : JVal
  | jlist : List JVal → JVal
  | jdict : List (String × JVal) → JVal

instance : Inhabited JVal := ⟨.jnull⟩

/-- Python truthiness for the `JVal` shapes that occur in the script
(`if allowed_schemas ...`, `... and meta ...`). -/
def pyTruthy : JVal → Bool
  | .jstr s => !s.isEmpty
  | .jnum n => n != 0
  | .jbool b => b
  | .jnull => false
  | .jlist xs => !xs.isEmpty
  | .jdict kvs => !kvs.isEmpty

/-- Key membership test `k in d` on a dict value; `false` on non-dicts. -/
def jHasKey (v : JVal) (k : String) : Bool :=
  match v with
  | .jdict kvs => (List.lookup k kvs).isSome
  | _ => false

/-- Dict lookup `d.get(k)`; `none` when absent or not a dict. -/
def jGet (v : JVal) (k : String) : Option JVal :=
  match v with
  | .jdict kvs => List.lookup k kvs
  | _ => none

/-- Python subscription `e[k]`: `KeyError` when the key is absent,
`TypeError` when `e` is not a dict. -/
def pyIndex (e : JVal) (k : String) : Except String JVal :=
  match e with
  | .jdict kvs =>
    match List.lookup k kvs with
    | some v => .ok v
    | none => .error ("KeyError: " ++ k)
  | _ => .error "TypeError: not subscriptable"

/-- `resolve_embedding_model`: alias table with the hard-coded
`bge-base` fallback (lines 122-132 of the script). -/
def resolve_embedding_model (model_input : String) : String × String :=
  match List.lookup model_input
      [("bge-base", ("BAAI/bge-base-en-v1.5", "bge_base_")),
       ("bge-large", ("BAAI/bge-large-en-v1.5", "bge_large_")),
       ("e5-large", ("intfloat/e5-large-v2", "e5_large_")),
       ("bb", ("BAAI/bge-base-en-v1.5", "bge_base_")),
       ("bl", ("BAAI/bge-large-en-v1.5", "bge_large_")),
       ("e5", ("intfloat/e5-large-v2", "e5_large_"))] with
  | some p => p
  | none => ("BAAI/bge-base-en-v1.5", "bge_base_")

/-- Canonical model identifier of the first collection of the model set. -/
def nBgeBase : String := (resolve_embedding_model "bge-base").1

/-- Canonical model identifier of the second collection of the model set. -/
def nBgeLarge : String := (resolve_embedding_model "bge-large").1

/-- Canonical model identifier of the third collection of the model set. -/
def nE5Large : String := (resolve_embedding_model "e5-large").1

/-- `format_for_embedding` (lines 138-154 of the script): lowercases the
model name and the mode, then dispatches on substring tests — the `bge`
branch first, then `e5`, otherwise the text unchanged. -/
def format_for_embedding (text model_name mode : String) : String :=
  let m := pyLower model_name
  let md := pyLower mode
  if strContains m "bge" then
    if md = "query" then "Represent this sentence for searching relevant passages: " ++ text
    else text
  else if strContains m "e5" then
    if md = "query" then "query: " ++ text
    else "passage: " ++ text
  else text

/-- C6: `format_for_embedding` is pure and total (it is a total function of
its three arguments), and for every text: a model identifier containing
"bge" (case-insensitive) gets the text unchanged in document mode and the
BGE retrieval instruction prefix in query mode; otherwise, one containing
"e5" gets the "passage: " document prefix and the "query: " query prefix;
any other model identifier gets the text unchanged regardless of mode. -/
theorem formatter_rules (t model : String) :
    (strContains (pyLower model) "bge" = true →
      format_for_embedding t model "document" = t ∧
      format_for_embedding t model "query" =
        "Represent this sentence for searching relevant passages: " ++ t) ∧
    (strContains (pyLower model) "bge" = false →
      strContains (pyLower model) "e5" = true →
      format_for_embedding t model "document" = "passage: " ++ t ∧
      format_for_embedding t model "query" = "query: " ++ t) ∧
    (strContains (pyLower model) "bge" = false →
      strContains (pyLower model) "e5" = false →
      ∀ mode, format_for_embedding t model mode = t) := by
  have hd : pyLower "document" ≠ "query" := by decide
  have hq : pyLower "query" = "query" := by decide
  refine ⟨fun hb => ?_, fun hb he => ?_, fun hb he mode => ?_⟩
  · exact ⟨by simp [format_for_embedding, hb, hd], by simp [format_for_embedding, hb, hq]⟩
  · exact ⟨by simp [format_for_embedding, hb, he, hd], by simp [format_for_embedding, hb, he, hq]⟩
  · simp [format_for_embedding, hb, he]

/-- Witness for C6: each of the three branches of `formatter_rules`,
evaluated at a concrete model identifier of that branch. -/
theorem formatter_rules_witness :
    (strContains (pyLower "BAAI/bge-base-en-v1.5") "bge" = true ∧
      format_for_embedding "x" "BAAI/bge-base-en-v1.5" "document" = "x" ∧
      format_for_embedding "x" "BAAI/bge-base-en-v1.5" "query" =
        "Represent this sentence for searching relevant passages: x") ∧
    (strContains (pyLower "intfloat/e5-large-v2") "bge" = false ∧
      strContains (pyLower "intfloat/e5-large-v2") "e5" = true ∧
      format_for_embedding "x" "intfloat/e5-large-v2" "document" = "passage: x" ∧
      format_for_embedding "x" "intfloat/e5-large-v2" "query" = "query: x") ∧
    (strContains (pyLower "all-MiniLM-L6") "bge" = false ∧
      strContains (pyLower "all-MiniLM-L6") "e5" = false ∧
      format_for_embedding "x" "all-MiniLM-L6" "document" = "x" ∧
      format_for_embedding "x" "all-MiniLM-L6" "sparkle" = "x") := by
  refine ⟨⟨by decide, ?_⟩, ⟨by decide, by decide, ?_⟩, ⟨by decide, by decide, ?_, ?_⟩⟩
  · exact ⟨((formatter_rules "x" "BAAI/bge-base-en-v1.5").1 (by decide)).1,
      ((formatter_rules "x" "BAAI/bge-base-en-v1.5").1 (by decide)).2⟩
  · exact ⟨((formatter_rules "x" "intfloat/e5-large-v2").2.1 (by decide) (by decide)).1,
      ((formatter_rules "x" "intfloat/e5-large-v2").2.1 (by decide) (by decide)).2⟩
  · exact (formatter_rules "x" "all-MiniLM-L6").2.2 (by decide) (by decide) "document"
  · exact (formatter_rules "x" "all-MiniLM-L6").2.2 (by decide) (by decide) "sparkle"

/-- Observable content of one ChromaDB collection: `(id, document, metadata)`
triples in insertion order. The document is the string passed to
`collection.add` (the *formatted* text); the metadata is the dict passed
alongside. -/
abbrev Collection := List (String × String × List (String × JVal))

/-- `collection.get()["ids"]`. -/
def colGetIds (c : Collection) : List String := c.map (fun e => e.1)

/-- `collection.delete(ids=ids)`: removes the listed ids; ids absent from
the collection are ignored by the backend. -/
def colDelete (c : Collection) (ids : List String) : Collection :=
  c.filter (fun e => !(ids.contains e.1))

/-- Pointwise zip of the `ids`, `documents`, `metadatas` arguments of
`collection.add`. -/
def zip3 : List String → List String → List (List (String × JVal)) →
    List (String × String × List (String × JVal))
  | i :: is, d :: ds, m :: ms => (i, d, m) :: zip3 is ds ms
  | _, _, _ => []

/-- `collection.add(documents=docs, ids=ids, metadatas=metas)`. -/
def colAdd (c : Collection) (ids docs : List String)
    (metas : List (List (String × JVal))) : Collection :=
  c ++ zip3 ids docs metas

/-- Effectful map over a list: a Python list comprehension whose body can
raise, stopping at the first error. -/
def mapE (f : α → Except String β) : List α → Except String (List β)
  | [] => .ok []
  | a :: as =>
    match f a with
    | .error e => .error e
    | .ok b =>
      match mapE f as with
      | .error e => .error e
      | .ok bs => .ok (b :: bs)

/-- `entry["text"]`, which the embedding function and backend require to be
a string document. -/
def entryText (e : JVal) : Except String String :=
  match pyIndex e "text" with
  | .error err => .error err
  | .ok (.jstr s) => .ok s
  | .ok _ => .error "ValueError: document must be a string"

/-- `entry["id"]`, which the backend requires to be a string id. -/
def entryId (e : JVal) : Except String String :=
  match pyIndex e "id" with
  | .error err => .error err
  | .ok (.jstr s) => .ok s
  | .ok _ => .error "ValueError: id must be a string"

/-- `entry["metadata"]`, which the backend requires to be a dict. -/
def entryMetadata (e : JVal) : Except String (List (String × JVal)) :=
  match pyIndex e "metadata" with
  | .error err => .error err
  | .ok (.jdict kvs) => .ok kvs
  | .ok _ => .error "ValueError: metadata must be a dict"

/-- The `formatted_docs` list comprehension of the import loop
(line 498 of the script). -/
def buildDocs (mname : String) (es : List JVal) : Except String (List String) :=
  mapE (fun e =>
    match entryText e with
    | .error err => .error err
    | .ok t => .ok (format_for_embedding t mname "document")) es

/-- The `ids` list comprehension of `collection.add` (line 500). -/
def buildIds (es : List JVal) : Except String (List String) :=
  mapE entryId es

/-- The `metadatas` list comprehension of `collection.add` (line 501). -/
def buildMetas (es : List JVal) : Except String (List (List (String × JVal))) :=
  mapE entryMetadata es

/-- Structural check on one of the first few entries, as in
`validate_file_structure`: the entry is a dict, has `text` and `metadata`
keys, and its `metadata` value is a dict. -/
def entryStructOk (e : JVal) : Bool :=
  match e with
  | .jdict kvs =>
    (List.lookup "text" kvs).isSome && (List.lookup "metadata" kvs).isSome &&
      (match List.lookup "metadata" kvs with
       | some (.jdict _) => true
       | _ => false)
  | _ => false

/-- `validate_file_structure` (lines 226-242 of the script): the file must
be a non-empty list, and only its first three entries (`file_data[:3]`) are
inspected. -/
def validate_file_structure (fd : JVal) : Bool :=
  match fd with
  | .jlist es => !es.isEmpty && (es.take 3).all entryStructOk
  | _ => false

/-- The three collections opened by `get_all_collections_for_type`, in its
fixed order: bge-base, bge-large, e5-large. -/
structure ModelSet where
  bgeBase : Collection
  bgeLarge : Collection
  e5Large : Collection

/-- One iteration of the import fan-out loop (lines 494-501 of the script)
at fan-out position `i`: read the existing ids and delete them, build the
formatted documents, the ids and the metadatas (in source order), then
perform the bulk add, whose backend outcome is given by the oracle `addOk`.
The second component is the raised exception, if any; the first component
is the collection as the loop leaves it (cleared, when the iteration fails
after the delete). -/
def syncStep (addOk : Nat → Bool) (es : List JVal) (i : Nat) (mname : String)
    (col : Collection) : Collection × Option String :=
  let cleared := colDelete col (colGetIds col)
  match buildDocs mname es with
  | .error e => (cleared, some e)
  | .ok docs =>
    match buildIds es with
    | .error e => (cleared, some e)
    | .ok ids =>
      match buildMetas es with
      | .error e => (cleared, some e)
      | .ok metas =>
        if addOk i then (colAdd cleared ids docs metas, none)
        else (cleared, some "StoreWriteError")

/-- What the import command reports to the user: the success message with
the record count, the single aggregated error message printed by the
`except` handler, or the validation abort. -/
inductive Report where
  | imported : Nat → Report
  | singleError : String → Report
  | invalidFile : Report
deriving DecidableEq

/-- The `r <file>` import command (lines 484-508 of the script): validate
the parsed file, then fan out over the three collections of the model set
in order, clearing and re-adding each; the surrounding `try`/`except`
turns the first exception into a single error report and stops the loop,
leaving later collections untouched. -/
def rImport (addOk : Nat → Bool) (fd : JVal) (st : ModelSet) : ModelSet × Report :=
  if validate_file_structure fd then
    match fd with
    | .jlist es =>
      match syncStep addOk es 0 nBgeBase st.bgeBase with
      | (c0, some e) => (⟨c0, st.bgeLarge, st.e5Large⟩, .singleError e)
      | (c0, none) =>
        match syncStep addOk es 1 nBgeLarge st.bgeLarge with
        | (c1, some e) => (⟨c0, c1, st.e5Large⟩, .singleError e)
        | (c1, none) =>
          match syncStep addOk es 2 nE5Large st.e5Large with
          | (c2, some e) => (⟨c0, c1, c2⟩, .singleError e)
          | (c2, none) => (⟨c0, c1, c2⟩, .imported es.length)
    | _ => (st, .invalidFile)
  else (st, .invalidFile)

/-- A fully well-formed import entry: a dict with string `id`, string
`text`, and dict `metadata` — the shape under which every backend argument
list of the import loop builds without an exception. -/
def wfEntry (e : JVal) : Bool :=
  match e with
  | .jdict kvs =>
    (match List.lookup "id" kvs with | some (.jstr _) => true | _ => false) &&
    (match List.lookup "text" kvs with | some (.jstr _) => true | _ => false) &&
    (match List.lookup "metadata" kvs with | some (.jdict _) => true | _ => false)
  | _ => false

/-- All entries of an import file are well-formed. -/
def wfEntries (es : List JVal) : Bool := es.all wfEntry

/-- The `id` of a well-formed entry (`""` otherwise). -/
def idStr (e : JVal) : String :=
  match jGet e "id" with
  | some (.jstr s) => s
  | _ => ""

/-- The `text` of a well-formed entry (`""` otherwise). -/
def textStr (e : JVal) : String :=
  match jGet e "text" with
  | some (.jstr s) => s
  | _ => ""

/-- The `metadata` dict of a well-formed entry (`[]` otherwise). -/
def metaKVs (e : JVal) : List (String × JVal) :=
  match jGet e "metadata" with
  | some (.jdict kvs) => kvs
  | _ => []

/-- The content a fully successful import leaves in the collection of model
`mname`: one triple per imported entry, in file order, with the document
formatted for that model. -/
def mkCol (mname : String) (es : List JVal) : Collection :=
  es.map (fun e => (idStr e, format_for_embedding (textStr e) mname "document", metaKVs e))

theorem colDelete_getIds_self (c : Collection) : colDelete c (colGetIds c) = [] := by
  rw [colDelete, List.filter_eq_nil_iff]
  intro a ha
  have : a.1 ∈ c.map (fun e => e.1) := List.mem_map_of_mem _ ha
  simp only [colGetIds, List.contains, Bool.not_eq_true]
  rw [List.elem_eq_true_of_mem this]
  simp

theorem mapE_ok {α β : Type} (f : α → Except String β) (g : α → β) :
    ∀ l : List α, (∀ a ∈ l, f a = .ok (g a)) → mapE f l = .ok (l.map g) := by
  intro l
  induction l with
  | nil => intro _; rfl
  | cons a t ih =>
    intro h
    have ha := h a (List.mem_cons_self a t)
    have ht := ih (fun x hx => h x (List.mem_cons_of_mem a hx))
    simp [mapE, ha, ht]

theorem wfEntry_fields (e : JVal) (h : wfEntry e = true) :
    entryId e = .ok (idStr e) ∧ entryText e = .ok (textStr e) ∧
      entryMetadata e = .ok (metaKVs e) := by
  match e, h with
  | .jdict kvs, h =>
    rw [wfEntry] at h
    simp only [Bool.and_eq_true] at h
    obtain ⟨⟨hi, ht⟩, hm⟩ := h
    refine ⟨?_, ?_, ?_⟩
    · rw [entryId, pyIndex, idStr, jGet]
      cases hl : List.lookup "id" kvs with
      | none => simp_all
      | some v => cases v <;> simp_all
    · rw [entryText, pyIndex, textStr, jGet]
      cases hl : List.lookup "text" kvs with
      | none => simp_all
      | some v => cases v <;> simp_all
    · rw [entryMetadata, pyIndex, metaKVs, jGet]
      cases hl : List.lookup "metadata" kvs with
      | none => simp_all
      | some v => cases v <;> simp_all

theorem buildDocs_wf (mname : String) (es : List JVal) (h : wfEntries es = true) :
    buildDocs mname es =
      .ok (es.map (fun e => format_for_embedding (textStr e) mname "document")) := by
  rw [buildDocs]
  apply mapE_ok
  intro a ha
  have hw := (List.all_eq_true.mp h) a ha
  rw [(wfEntry_fields a hw).2.1]

theorem buildIds_wf (es : List JVal) (h : wfEntries es = true) :
    buildIds es = .ok (es.map idStr) := by
  rw [buildIds]
  apply mapE_ok
  intro a ha
  exact (wfEntry_fields a ((List.all_eq_true.mp h) a ha)).1

theorem buildMetas_wf (es : List JVal) (h : wfEntries es = true) :
    buildMetas es = .ok (es.map metaKVs) := by
  rw [buildMetas]
  apply mapE_ok
  intro a ha
  exact (wfEntry_fields a ((List.all_eq_true.mp h) a ha)).2.2

theorem zip3_map {α : Type} (g1 g2 : α → String) (g3 : α → List (String × JVal)) :
    ∀ es : List α, zip3 (es.map g1) (es.map g2) (es.map g3) =
      es.map (fun e => (g1 e, g2 e, g3 e)) := by
  intro es
  induction es with
  | nil => rfl
  | cons a t ih => simp [zip3, ih]

theorem syncStep_wf (addOk : Nat → Bool) (es : List JVal) (i : Nat) (mname : String)
    (col : Collection) (hwf : wfEntries es = true) (hok : addOk i = true) :
    syncStep addOk es i mname col = (mkCol mname es, none) := by
  rw [syncStep, buildDocs_wf mname es hwf, buildIds_wf es hwf, buildMetas_wf es hwf]
  simp only [hok, if_true, colDelete_getIds_self, colAdd, List.nil_append, zip3_map, mkCol]

theorem wfEntry_structOk (e : JVal) (h : wfEntry e = true) : entryStructOk e = true := by
  match e, h with
  | .jdict kvs, h =>
    rw [wfEntry] at h
    simp only [Bool.and_eq_true] at h
    obtain ⟨⟨_, ht⟩, hm⟩ := h
    rw [entryStructOk]
    simp only [Bool.and_eq_true]
    refine ⟨⟨?_, ?_⟩, ?_⟩
    · cases hl : List.lookup "text" kvs with
      | none => simp_all
      | some v => simp
    · cases hl : List.lookup "metadata" kvs with
      | none => simp_all
      | some v => simp
    · cases hl : List.lookup "metadata" kvs with
      | none => simp_all
      | some v => cases v <;> simp_all

theorem validate_of_wf (es : List JVal) (hwf : wfEntries es = true) (hne : es ≠ []) :
    validate_file_structure (.jlist es) = true := by
  rw [validate_file_structure]
  simp only [Bool.and_eq_true]
  constructor
  · simpa using hne
  · rw [List.all_eq_true]
    intro a ha
    exact wfEntry_structOk a ((List.all_eq_true.mp hwf) a (List.take_subset 3 es ha))

theorem rImport_success (addOk : Nat → Bool) (es : List JVal) (st : ModelSet)
    (hwf : wfEntries es = true) (hne : es ≠ [])
    (h0 : addOk 0 = true) (h1 : addOk 1 = true) (h2 : addOk 2 = true) :
    rImport addOk (.jlist es) st =
      (⟨mkCol nBgeBase es, mkCol nBgeLarge es, mkCol nE5Large es⟩, .imported es.length) := by
  rw [rImport, validate_of_wf es hwf hne]
  simp only [if_true]
  rw [syncStep_wf addOk es 0 nBgeBase st.bgeBase hwf h0,
    syncStep_wf addOk es 1 nBgeLarge st.bgeLarge hwf h1,
    syncStep_wf addOk es 2 nE5Large st.e5Large hwf h2]

/-- Cross-collection agreement between collections `A` (of model `nA`) and
`B` (of model `nB`): every stored triple of `A` is backed by an original
text `t` whose per-model document formatting yields the stored document,
and `B` stores, under the same id, the same metadata with `t` formatted for
`nB`. -/
def crossConsistent (nA nB : String) (A B : Collection) : Prop :=
  ∀ uid d m, (uid, d, m) ∈ A →
    ∃ t, d = format_for_embedding t nA "document" ∧
      (uid, format_for_embedding t nB "document", m) ∈ B

theorem mkCol_cross (nA nB : String) (es : List JVal) :
    crossConsistent nA nB (mkCol nA es) (mkCol nB es) := by
  intro uid d m hm
  rw [mkCol, List.mem_map] at hm
  obtain ⟨e, he, heq⟩ := hm
  cases heq
  refine ⟨textStr e, rfl, ?_⟩
  rw [mkCol, List.mem_map]
  exact ⟨e, he, rfl⟩

/-- `display_stored_facts` (lines 179-197 of the script), restricted to its
observable result: the ordinal-to-id map built by `enumerate(..., 1)` over
the collection's ids (the empty map when the collection is empty). -/
def enumFrom (i : Nat) : List α → List (Nat × α)
  | [] => []
  | a :: as => (i, a) :: enumFrom (i + 1) as

/-- The id map returned by listing the collection. -/
def display_stored_facts (c : Collection) : List (Nat × String) :=
  enumFrom 1 (colGetIds c)

/-- Session state of the interactive loop: the opened model set and the
current `id_map`. The primary collection queried and listed by the session
is the one for the default `bge-base` model. -/
structure Session where
  store : ModelSet
  idMap : List (Nat × String)

/-- `get_all_collections_for_type(clear_collections=True)` (lines 200-223):
opening the model set while deleting every existing entry of every
collection. -/
def clearAll (st : ModelSet) : ModelSet :=
  ⟨colDelete st.bgeBase (colGetIds st.bgeBase),
   colDelete st.bgeLarge (colGetIds st.bgeLarge),
   colDelete st.e5Large (colGetIds st.e5Large)⟩

/-- `col.delete(ids=[uid])` fanned out over the model set. -/
def deleteEverywhere (st : ModelSet) (uid : String) : ModelSet :=
  ⟨colDelete st.bgeBase [uid], colDelete st.bgeLarge [uid], colDelete st.e5Large [uid]⟩

/-- Observable outcome of the deletion-by-ordinal command: either the
resolved id was deleted, or the out-of-range warning was logged and
nothing was done. -/
inductive DelOutcome where
  | deleted : String → DelOutcome
  | warned : DelOutcome
deriving DecidableEq

/-- The `?` listing command (line 364 of the script): replaces `id_map`
with the map produced by `display_stored_facts` on the primary
collection. -/
def stepList (s : Session) : Session :=
  ⟨s.store, display_stored_facts s.store.bgeBase⟩

/-- Schema filtering of one query result (lines 380-383 of the script):
`if allowed_schemas and allowed_schemas != ["all"] and meta and "schema" in
meta`, then drop unless the lowercased schema value ends with one of the
allowed suffixes. A non-string schema value makes `.lower()` raise. -/
def schemaKeep (allowed : List String) (meta : JVal) : Except String Bool :=
  if (!allowed.isEmpty) && !(allowed == ["all"]) && pyTruthy meta && jHasKey meta "schema" then
    match jGet meta "schema" with
    | some (.jstr s) => .ok (allowed.any (fun sfx => strEndsWith (pyLower s) sfx))
    | _ => .error "AttributeError: lower"
  else .ok true

/-- The filtering loop over the raw query results (lines 377-384),
preserving backend order; an exception aborts the whole query command. -/
def schemaFilter (allowed : List String) :
    List (String × String × JVal) → Except String (List (String × String × JVal))
  | [] => .ok []
  | r :: rs =>
    match schemaKeep allowed r.2.2 with
    | .error e => .error e
    | .ok true =>
      match schemaFilter allowed rs with
      | .error e => .error e
      | .ok l => .ok (r :: l)
    | .ok false => schemaFilter allowed rs

/-- The `?<query>` command (lines 367-413 of the script): the raw ranked
results come from the backend (`backendResults`, order backend-defined);
they are schema-filtered and displayed numbered from 1. The session's
`id_map` is not touched by this branch. -/
def stepQuery (backendResults : List (String × String × JVal)) (allowed : List String)
    (s : Session) : Session × Except String (List (Nat × String × String × JVal)) :=
  match schemaFilter allowed backendResults with
  | .error e => (s, .error e)
  | .ok filtered => (s, .ok (enumFrom 1 filtered))

/-- The `-N` deletion-by-ordinal command (lines 433-446 of the script): if
the ordinal is in `id_map`, it resolves to its id, the model set is opened
with `clear_collections=True` (wiping every collection), the id is deleted
from each collection, and the ordinal is popped from the map; otherwise a
warning is logged and nothing happens. -/
def stepDeleteOrdinal (n : Nat) (s : Session) : Session × DelOutcome :=
  match List.lookup n s.idMap with
  | some uid =>
    (⟨deleteEverywhere (clearAll s.store) uid,
      s.idMap.filter (fun p => !(p.1 == n))⟩, .deleted uid)
  | none => (s, .warned)

theorem fmt_doc_bgeBase (t : String) : format_for_embedding t nBgeBase "document" = t := rfl

theorem fmt_doc_bgeLarge (t : String) : format_for_embedding t nBgeLarge "document" = t := rfl

theorem fmt_doc_e5Large (t : String) :
    format_for_embedding t nE5Large "document" = "passage: " ++ t := rfl

theorem mkCol_length (mname : String) (es : List JVal) : (mkCol mname es).length = es.length :=
  List.length_map es _

theorem mkCol_mem (mname : String) (es : List JVal) (e : JVal) (he : e ∈ es) :
    (idStr e, format_for_embedding (textStr e) mname "document", metaKVs e) ∈
      mkCol mname es := by
  rw [mkCol, List.mem_map]
  exact ⟨e, he, rfl⟩

/-- Well-formed sample entry used by concrete evaluations. -/
def entA : JVal :=
  .jdict [("id", .jstr "f1"), ("text", .jstr "refund window is 30 days"),
          ("metadata", .jdict [("source", .jstr "user")])]

/-- C1, counterexample: importing one fact with text
"refund window is 30 days" into an empty model set succeeds on all three
collections, yet the id `f1` is stored with document
"refund window is 30 days" in the bge-base collection and with document
"passage: refund window is 30 days" in the e5-large collection — the same
id is not present with identical text in every collection, because each
collection stores the per-model *formatted* text, not the original. -/
theorem c1_counterexample :
    rImport (fun _ => true) (.jlist [entA]) ⟨[], [], []⟩ =
      (⟨[("f1", "refund window is 30 days", [("source", JVal.jstr "user")])],
        [("f1", "refund window is 30 days", [("source", JVal.jstr "user")])],
        [("f1", "passage: refund window is 30 days", [("source", JVal.jstr "user")])]⟩,
       .imported 1) ∧
    ("refund window is 30 days" : String) ≠ "passage: refund window is 30 days" :=
  ⟨rfl, by decide⟩

/-- C1 (amended): after a synchronized import completes successfully on
every collection of the model set, every id present in one collection is
present in every other collection with identical id and identical
metadata, and the stored documents of the two collections are the
document-mode formattings, for the respective models, of one and the same
original text (identical text only up to per-model formatting). -/
theorem c1_sync_consistency (es : List JVal) (st : ModelSet)
    (hwf : wfEntries es = true) (hne : es ≠ []) :
    crossConsistent nBgeBase nBgeLarge
        (rImport (fun _ => true) (.jlist es) st).1.bgeBase
        (rImport (fun _ => true) (.jlist es) st).1.bgeLarge ∧
      crossConsistent nBgeLarge nBgeBase
        (rImport (fun _ => true) (.jlist es) st).1.bgeLarge
        (rImport (fun _ => true) (.jlist es) st).1.bgeBase ∧
      crossConsistent nBgeBase nE5Large
        (rImport (fun _ => true) (.jlist es) st).1.bgeBase
        (rImport (fun _ => true) (.jlist es) st).1.e5Large ∧
      crossConsistent nE5Large nBgeBase
        (rImport (fun _ => true) (.jlist es) st).1.e5Large
        (rImport (fun _ => true) (.jlist es) st).1.bgeBase ∧
      crossConsistent nBgeLarge nE5Large
        (rImport (fun _ => true) (.jlist es) st).1.bgeLarge
        (rImport (fun _ => true) (.jlist es) st).1.e5Large ∧
      crossConsistent nE5Large nBgeLarge
        (rImport (fun _ => true) (.jlist es) st).1.e5Large
        (rImport (fun _ => true) (.jlist es) st).1.bgeLarge := by
  rw [rImport_success (fun _ => true) es st hwf hne rfl rfl rfl]
  exact ⟨mkCol_cross _ _ _, mkCol_cross _ _ _, mkCol_cross _ _ _,
    mkCol_cross _ _ _, mkCol_cross _ _ _, mkCol_cross _ _ _⟩

/-- Witness for C1 (amended), at the one-entry file `[entA]` and the empty
model set. -/
theorem c1_sync_consistency_witness :
    wfEntries [entA] = true ∧ [entA] ≠ [] ∧
      crossConsistent nBgeBase nE5Large
        (rImport (fun _ => true) (.jlist [entA]) ⟨[], [], []⟩).1.bgeBase
        (rImport (fun _ => true) (.jlist [entA]) ⟨[], [], []⟩).1.e5Large :=
  ⟨by decide, by simp,
    (c1_sync_consistency [entA] ⟨[], [], []⟩ (by decide) (by simp)).2.2.1⟩

/-- Well-formed sample entry used by concrete evaluations. -/
def entB : JVal :=
  .jdict [("id", .jstr "f2"), ("text", .jstr "hello"), ("metadata", .jdict [])]

/-- C2, counterexample: after a fully succeeding synchronized import of a
fact with text "hello", listing the e5-large collection returns the
document "passage: hello", not the text "hello" that was passed in — the
stored document is the formatted text, so the round-trip claim fails for
the e5 model. -/
theorem c2_counterexample :
    rImport (fun _ => true) (.jlist [entB]) ⟨[], [], []⟩ =
      (⟨[("f2", "hello", [])], [("f2", "hello", [])],
        [("f2", "passage: hello", [])]⟩, .imported 1) ∧
    ("passage: hello" : String) ≠ "hello" :=
  ⟨rfl, by decide⟩

/-- C2 (amended): for every fact of a fully succeeding synchronized
bulk add, every collection of the model set afterwards stores, under the
fact's id, the fact's metadata unchanged together with the document-mode
formatting of the fact's text for that collection's model; for the two
bge-family collections that formatting is the identity, so their stored
document equals the original text, while the e5 collection stores
"passage: " prepended to it. -/
theorem c2_roundtrip (es : List JVal) (st : ModelSet) (e : JVal)
    (hwf : wfEntries es = true) (hne : es ≠ []) (he : e ∈ es) :
    ((idStr e, textStr e, metaKVs e) ∈
        (rImport (fun _ => true) (.jlist es) st).1.bgeBase ∧
      (idStr e, textStr e, metaKVs e) ∈
        (rImport (fun _ => true) (.jlist es) st).1.bgeLarge) ∧
      (idStr e, "passage: " ++ textStr e, metaKVs e) ∈
        (rImport (fun _ => true) (.jlist es) st).1.e5Large := by
  rw [rImport_success (fun _ => true) es st hwf hne rfl rfl rfl]
  refine ⟨⟨?_, ?_⟩, ?_⟩
  · have h := mkCol_mem nBgeBase es e he
    rw [fmt_doc_bgeBase] at h
    exact h
  · have h := mkCol_mem nBgeLarge es e he
    rw [fmt_doc_bgeLarge] at h
    exact h
  · have h := mkCol_mem nE5Large es e he
    rw [fmt_doc_e5Large] at h
    exact h

/-- Witness for C2 (amended), at the one-entry file `[entB]` and the empty
model set. -/
theorem c2_roundtrip_witness :
    wfEntries [entB] = true ∧ [entB] ≠ [] ∧ entB ∈ [entB] ∧
      (idStr entB, textStr entB, metaKVs entB) ∈
        (rImport (fun _ => true) (.jlist [entB]) ⟨[], [], []⟩).1.bgeBase ∧
      (idStr entB, "passage: " ++ textStr entB, metaKVs entB) ∈
        (rImport (fun _ => true) (.jlist [entB]) ⟨[], [], []⟩).1.e5Large :=
  ⟨by decide, by simp, by simp,
    (c2_roundtrip [entB] ⟨[], [], []⟩ entB (by decide) (by simp) (by simp)).1.1,
    (c2_roundtrip [entB] ⟨[], [], []⟩ entB (by decide) (by simp) (by simp)).2⟩

/-- Well-formed sample entry used by concrete evaluations. -/
def entC : JVal :=
  .jdict [("id", .jstr "f3"), ("text", .jstr "v"), ("metadata", .jdict [("k", .jstr "1")])]

/-- C5, counterexample: replace-all import of one entry with text "v" into
a non-empty model set leaves one fact per collection with matching ids and
metadata, but the e5-large collection stores the document "passage: v",
which does not match the imported text "v" exactly. -/
theorem c5_counterexample :
    rImport (fun _ => true) (.jlist [entC])
        ⟨[("old", "odoc", [])], [("old", "odoc", [])], [("old", "odoc", [])]⟩ =
      (⟨[("f3", "v", [("k", JVal.jstr "1")])], [("f3", "v", [("k", JVal.jstr "1")])],
        [("f3", "passage: v", [("k", JVal.jstr "1")])]⟩, .imported 1) ∧
    ("passage: v" : String) ≠ "v" :=
  ⟨rfl, by decide⟩

/-- C5 (amended): a fully succeeding replace-all import of N entries into a
model set whose collections are non-empty leaves exactly N facts in every
collection; their ids and metadata match the imported entries exactly and
in file order, and each stored document is the document-mode formatting of
the imported text for that collection's model. -/
theorem c5_replace_all (es : List JVal) (st : ModelSet)
    (hwf : wfEntries es = true) (hne : es ≠ [])
    (_hb : st.bgeBase ≠ []) (_hl : st.bgeLarge ≠ []) (_he : st.e5Large ≠ []) :
    ((rImport (fun _ => true) (.jlist es) st).1.bgeBase.length = es.length ∧
      (rImport (fun _ => true) (.jlist es) st).1.bgeLarge.length = es.length ∧
      (rImport (fun _ => true) (.jlist es) st).1.e5Large.length = es.length) ∧
    ((rImport (fun _ => true) (.jlist es) st).1.bgeBase = mkCol nBgeBase es ∧
      (rImport (fun _ => true) (.jlist es) st).1.bgeLarge = mkCol nBgeLarge es ∧
      (rImport (fun _ => true) (.jlist es) st).1.e5Large = mkCol nE5Large es) ∧
    (rImport (fun _ => true) (.jlist es) st).2 = .imported es.length := by
  rw [rImport_success (fun _ => true) es st hwf hne rfl rfl rfl]
  exact ⟨⟨mkCol_length _ es, mkCol_length _ es, mkCol_length _ es⟩, ⟨rfl, rfl, rfl⟩, rfl⟩

/-- Witness for C5 (amended), at the one-entry file `[entC]` and a
non-empty model set. -/
theorem c5_replace_all_witness :
    wfEntries [entC] = true ∧ [entC] ≠ [] ∧
      ([("old", "odoc", [])] : Collection) ≠ [] ∧
      (rImport (fun _ => true) (.jlist [entC])
          ⟨[("old", "odoc", [])], [("old", "odoc", [])], [("old", "odoc", [])]⟩).1.bgeBase.length =
        [entC].length ∧
      (rImport (fun _ => true) (.jlist [entC])
          ⟨[("old", "odoc", [])], [("old", "odoc", [])], [("old", "odoc", [])]⟩).2 =
        .imported [entC].length :=
  ⟨by decide, by simp, by simp,
    (c5_replace_all [entC] ⟨[("old", "odoc", [])], [("old", "odoc", [])], [("old", "odoc", [])]⟩
      (by decide) (by simp) (by simp) (by simp) (by simp)).1.1,
    (c5_replace_all [entC] ⟨[("old", "odoc", [])], [("old", "odoc", [])], [("old", "odoc", [])]⟩
      (by decide) (by simp) (by simp) (by simp) (by simp)).2.2⟩

theorem syncStep_fail_wf (addOk : Nat → Bool) (es : List JVal) (i : Nat) (mname : String)
    (col : Collection) (hwf : wfEntries es = true) (hok : addOk i = false) :
    syncStep addOk es i mname col = ([], some "StoreWriteError") := by
  rw [syncStep, buildDocs_wf mname es hwf, buildIds_wf es hwf, buildMetas_wf es hwf]
  simp only [hok, Bool.false_eq_true, if_false, colDelete_getIds_self]

/-- Well-formed sample entry used by concrete evaluations. -/
def entD : JVal :=
  .jdict [("id", .jstr "n1"), ("text", .jstr "w"), ("metadata", .jdict [])]

/-- C4, counterexample: a synchronized import whose backend add fails on
the second collection of the model set. The operation stops there: the
first collection holds the new data, the second is left cleared, the third
collection is never attempted — it still holds its old entry `old` and
does not receive `n1` — and the caller gets the one aggregated
`Report.singleError`, not a per-model success/failure report. -/
theorem c4_counterexample :
    rImport (fun i => !(i == 1)) (.jlist [entD]) ⟨[], [], [("old", "odoc", [])]⟩ =
      (⟨[("n1", "w", [])], [], [("old", "odoc", [])]⟩, .singleError "StoreWriteError") ∧
    "n1" ∉ colGetIds (rImport (fun i => !(i == 1)) (.jlist [entD])
        ⟨[], [], [("old", "odoc", [])]⟩).1.e5Large ∧
    "old" ∈ colGetIds (rImport (fun i => !(i == 1)) (.jlist [entD])
        ⟨[], [], [("old", "odoc", [])]⟩).1.e5Large :=
  ⟨rfl, by decide, by decide⟩

/-- C4 (amended): when a collection of the fan-out fails, the `*_synchronized`
operation aborts at that collection instead of attempting the rest: with a
backend failure at fan-out position 1, the first collection keeps the
completed mutation, the second is left cleared, the third is untouched,
and the caller receives a single aggregated error report rather than a
per-model success/failure report. -/
theorem c4_fanout_abort (addOk : Nat → Bool) (es : List JVal) (st : ModelSet)
    (hwf : wfEntries es = true) (hne : es ≠ [])
    (h0 : addOk 0 = true) (h1 : addOk 1 = false) :
    rImport addOk (.jlist es) st =
      (⟨mkCol nBgeBase es, [], st.e5Large⟩, .singleError "StoreWriteError") := by
  rw [rImport, validate_of_wf es hwf hne]
  simp only [if_true]
  rw [syncStep_wf addOk es 0 nBgeBase st.bgeBase hwf h0,
    syncStep_fail_wf addOk es 1 nBgeLarge st.bgeLarge hwf h1]

/-- Witness for C4 (amended), with the concrete oracle failing exactly at
fan-out position 1. -/
theorem c4_fanout_abort_witness :
    wfEntries [entD] = true ∧ (fun i => !(i == 1)) 0 = true ∧
      (fun i => !(i == 1)) 1 = false ∧
      rImport (fun i => !(i == 1)) (.jlist [entD]) ⟨[], [], [("old", "odoc", [])]⟩ =
        (⟨mkCol nBgeBase [entD], [], [("old", "odoc", [])]⟩, .singleError "StoreWriteError") :=
  ⟨by decide, rfl, rfl,
    c4_fanout_abort (fun i => !(i == 1)) [entD] ⟨[], [], [("old", "odoc", [])]⟩
      (by decide) (by simp) rfl rfl⟩

/-- C8: a file that fails structural validation is rejected before any
mutation occurs — the import command returns the validation abort report
and every collection of the model set is exactly as before; zero facts are
added. -/
theorem c8_validation_rejects (fd : JVal) (st : ModelSet) (addOk : Nat → Bool)
    (h : validate_file_structure fd = false) :
    rImport addOk fd st = (st, .invalidFile) := by
  cases fd <;> simp [rImport, h]

/-- Structurally invalid import file: its only entry lacks the `metadata`
key. -/
def fdBad : JVal := .jlist [.jdict [("id", .jstr "x1"), ("text", .jstr "t")]]

/-- Witness for C8: a one-entry file missing `metadata` is rejected in
full, with a non-empty model set left untouched. -/
theorem c8_validation_rejects_witness :
    validate_file_structure fdBad = false ∧
      rImport (fun _ => true) fdBad ⟨[("keep", "kd", [])], [], []⟩ =
        (⟨[("keep", "kd", [])], [], []⟩, .invalidFile) :=
  ⟨by decide, c8_validation_rejects fdBad ⟨[("keep", "kd", [])], [], []⟩ (fun _ => true) (by decide)⟩

theorem syncStep_metas_fail (addOk : Nat → Bool) (es : List JVal) (i : Nat) (mname : String)
    (col : Collection) (ds ids : List String) (err : String)
    (hd : buildDocs mname es = .ok ds) (hi : buildIds es = .ok ids)
    (hm : buildMetas es = .error err) :
    syncStep addOk es i mname col = ([], some err) := by
  rw [syncStep, hd, hi, hm, colDelete_getIds_self]

/-- Entry missing the `metadata` key, placed beyond the validation window. -/
def entBad4 : JVal := .jdict [("id", .jstr "b4"), ("text", .jstr "t4")]

/-- C10, counterexample: a four-entry file whose first three entries are
valid and whose fourth lacks `metadata` passes validation (only the first
three entries are inspected) and the import proceeds; but the resulting
data loss is confined to the first collection of the fan-out: its contents
are deleted and its add fails, which aborts the loop, so the second and
third collections still hold their pre-existing contents — the claim that
*each* collection's existing contents are deleted is false. -/
theorem c10_counterexample :
    validate_file_structure (.jlist [entA, entB, entC, entBad4]) = true ∧
    rImport (fun _ => true) (.jlist [entA, entB, entC, entBad4])
        ⟨[("p", "pd", [])], [("q", "qd", [])], [("r", "rd", [])]⟩ =
      (⟨[], [("q", "qd", [])], [("r", "rd", [])]⟩, .singleError "KeyError: metadata") ∧
    ([("q", "qd", [])] : Collection) ≠ [] :=
  ⟨by decide, rfl, by simp⟩

/-- C10 (amended): structural validation inspects only the first three
entries of the file (two files agreeing on their first three entries and
on emptiness validate identically), so a file whose fourth entry lacks
`metadata` passes validation and the synchronized import proceeds; the
first collection of the fan-out is cleared and then its add raises
`KeyError`, which aborts the fan-out with a single error report — the
failed import is not atomic: the first collection's pre-existing contents
are lost while the later collections keep theirs. -/
theorem c10_validation_window (es' es'' : List JVal)
    (ht : es'.take 3 = es''.take 3) (hemp : es'.isEmpty = es''.isEmpty) :
    validate_file_structure (.jlist es') = validate_file_structure (.jlist es'') ∧
    (∀ (es : List JVal) (st : ModelSet) (addOk : Nat → Bool) (err : String)
      (ds ids : List String),
      validate_file_structure (.jlist es) = true →
      buildDocs nBgeBase es = .ok ds → buildIds es = .ok ids →
      buildMetas es = .error err →
      rImport addOk (.jlist es) st = (⟨[], st.bgeLarge, st.e5Large⟩, .singleError err)) := by
  constructor
  · simp only [validate_file_structure]
    rw [ht, hemp]
  · intro es st addOk err ds ids hv hd hi hm
    rw [rImport, hv]
    simp only [if_true]
    rw [syncStep_metas_fail addOk es 0 nBgeBase st.bgeBase ds ids err hd hi hm]

/-- Witness for C10 (amended), at the concrete four-entry file with an
invalid fourth entry. -/
theorem c10_validation_window_witness :
    ([entA, entB, entC, entBad4].take 3 = [entA, entB, entC].take 3) ∧
    validate_file_structure (.jlist [entA, entB, entC, entBad4]) =
      validate_file_structure (.jlist [entA, entB, entC]) ∧
    (validate_file_structure (.jlist [entA, entB, entC, entBad4]) = true ∧
      buildMetas [entA, entB, entC, entBad4] = .error "KeyError: metadata" ∧
      rImport (fun _ => true) (.jlist [entA, entB, entC, entBad4])
          ⟨[("p", "pd", [])], [("q", "qd", [])], [("r", "rd", [])]⟩ =
        (⟨[], [("q", "qd", [])], [("r", "rd", [])]⟩, .singleError "KeyError: metadata")) := by
  refine ⟨by simp, (c10_validation_window [entA, entB, entC, entBad4] [entA, entB, entC]
    (by simp) (by decide)).1, by decide, rfl, ?_⟩
  exact (c10_validation_window [entA, entB, entC, entBad4] [entA, entB, entC]
    (by simp) (by decide)).2 [entA, entB, entC, entBad4]
    ⟨[("p", "pd", [])], [("q", "qd", [])], [("r", "rd", [])]⟩ (fun _ => true)
    "KeyError: metadata"
    ["refund window is 30 days", "hello", "v", "t4"] ["f1", "f2", "f3", "b4"]
    (by decide) rfl rfl rfl

/-- Model set in which every collection holds the two facts `a` and `b`. -/
def ms3 : ModelSet :=
  ⟨[("a", "da", []), ("b", "db", [])],
   [("a", "da", []), ("b", "db", [])],
   [("a", "da", []), ("b", "db", [])]⟩

/-- C3 (code bug): with facts `a` and `b` stored in every collection and
the index map from listing them, the `-1` deletion command resolves
ordinal 1 to id `a` — but because the deletion path opens the model set
with `clear_collections=True` (line 438 of the script), every entry of
every collection is wiped before `a` is deleted: fact `b`, whose id was
not requested, is gone from all three collections as well, contradicting
the contract that facts outside the given id set remain unchanged. -/
theorem c3_delete_wipes_all :
    display_stored_facts ms3.bgeBase = [(1, "a"), (2, "b")] ∧
    stepDeleteOrdinal 1 ⟨ms3, display_stored_facts ms3.bgeBase⟩ =
      (⟨⟨[], [], []⟩, [(2, "b")]⟩, .deleted "a") ∧
    ("b" : String) ≠ "a" :=
  ⟨rfl, rfl, by decide⟩

theorem enumFrom_lookup {α : Type} (d : α) :
    ∀ (l : List α) (i k : Nat), k < l.length →
      List.lookup (i + k) (enumFrom i l) = some (l.getD k d) := by
  intro l
  induction l with
  | nil => intro i k h; simp at h
  | cons a t ih =>
    intro i k h
    cases k with
    | zero => simp [enumFrom, List.lookup]
    | succ k =>
      have hne : ((i + (k + 1) == i) = false) := by
        rw [beq_eq_false_iff_ne]
        omega
      simp only [enumFrom, List.lookup, hne, List.getD_cons_succ]
      have harith : i + (k + 1) = (i + 1) + k := by omega
      rw [harith]
      exact ih (i + 1) k (by simpa using h)

/-- C9 (amended): only listing populates the index map — after listing, the
map sends ordinal `1 + k` to the id of the `k`-th stored entry, and
deletion-by-ordinal resolves an ordinal through that map; the query
command displays numbered results but leaves the session's index map (and
the whole session state) unchanged; an ordinal not present in the current
map warns and takes no action at all. -/
theorem c9_index_map :
    (∀ (s : Session) (k : Nat), k < s.store.bgeBase.length →
      List.lookup (1 + k) (stepList s).idMap =
        some ((colGetIds s.store.bgeBase).getD k "")) ∧
    (∀ (backendResults : List (String × String × JVal)) (allowed : List String)
      (s : Session), (stepQuery backendResults allowed s).1 = s) ∧
    (∀ (n : Nat) (s : Session) (uid : String), List.lookup n s.idMap = some uid →
      (stepDeleteOrdinal n s).2 = .deleted uid) ∧
    (∀ (n : Nat) (s : Session), List.lookup n s.idMap = none →
      stepDeleteOrdinal n s = (s, .warned)) := by
  refine ⟨fun s k h => ?_, fun b a s => ?_, fun n s uid h => ?_, fun n s h => ?_⟩
  · exact enumFrom_lookup "" (colGetIds s.store.bgeBase) 1 k (by simpa [colGetIds] using h)
  · cases hf : schemaFilter a b with
    | error e => simp [stepQuery, hf]
    | ok l => simp [stepQuery, hf]
  · simp [stepDeleteOrdinal, h]
  · simp [stepDeleteOrdinal, h]

/-- Session with one listed fact, used to instantiate `c9_index_map`. -/
def sessW : Session := ⟨⟨[("a", "da", [])], [], []⟩, [(1, "a")]⟩

/-- Witness for C9 (amended), at a concrete one-fact session. -/
theorem c9_index_map_witness :
    (0 < sessW.store.bgeBase.length ∧
      List.lookup (1 + 0) (stepList sessW).idMap =
        some ((colGetIds sessW.store.bgeBase).getD 0 "")) ∧
    (stepQuery [("a", "da", JVal.jnull)] [] sessW).1 = sessW ∧
    (List.lookup 1 sessW.idMap = some "a" ∧
      (stepDeleteOrdinal 1 sessW).2 = .deleted "a") ∧
    (List.lookup 5 sessW.idMap = none ∧ stepDeleteOrdinal 5 sessW = (sessW, .warned)) :=
  ⟨⟨by decide, c9_index_map.1 sessW 0 (by decide)⟩,
    c9_index_map.2.1 [("a", "da", JVal.jnull)] [] sessW,
    ⟨rfl, c9_index_map.2.2.1 1 sessW "a" rfl⟩,
    ⟨rfl, c9_index_map.2.2.2 5 sessW rfl⟩⟩

/-- Model set whose primary (bge-base) collection holds facts `a` and `b`. -/
def ms9 : ModelSet := ⟨[("a", "da", []), ("b", "db", [])], [], []⟩

/-- C9, counterexample: after listing (`id_map` = `{1: a, 2: b}`), a query
whose backend ranking returns `b` first displays `b` as result number 1 —
but the query does not produce a new index map, so a subsequent `-1`
deletion resolves ordinal 1 to `a` (from the stale listing map), not to
`b`, the first displayed result of the query. -/
theorem c9_counterexample :
    (stepList ⟨ms9, []⟩).idMap = [(1, "a"), (2, "b")] ∧
    (stepQuery [("b", "db", JVal.jnull), ("a", "da", JVal.jnull)] []
        (stepList ⟨ms9, []⟩)).2 =
      .ok [(1, ("b", "db", JVal.jnull)), (2, ("a", "da", JVal.jnull))] ∧
    (stepQuery [("b", "db", JVal.jnull), ("a", "da", JVal.jnull)] []
        (stepList ⟨ms9, []⟩)).1 = stepList ⟨ms9, []⟩ ∧
    (stepDeleteOrdinal 1 (stepQuery [("b", "db", JVal.jnull), ("a", "da", JVal.jnull)] []
        (stepList ⟨ms9, []⟩)).1).2 = .deleted "a" ∧
    ("a" : String) ≠ "b" :=
  ⟨rfl, rfl, rfl, rfl, by decide⟩

/-- C7, counterexample: with allowed-suffix set `{"all"}` (reachable by
passing `-s " all"`, which survives the `['all']` equality check at line
264 of the script but is stripped and lowercased to `"all"` at line 269),
a result whose metadata schema is `"x.data_mart"` satisfies every drop
condition of the claim — the allowed set is non-empty, the `schema` key is
present, and the case-folded value ends with no allowed suffix — yet the
filter keeps it, because of the extra `allowed_schemas != ["all"]` guard
at line 380. -/
theorem c7_counterexample :
    schemaKeep ["all"] (.jdict [("schema", .jstr "x.data_mart")]) = .ok true ∧
    (["all"] : List String).isEmpty = false ∧
    jHasKey (.jdict [("schema", .jstr "x.data_mart")]) "schema" = true ∧
    (["all"] : List String).any
      (fun sfx => strEndsWith (pyLower "x.data_mart") sfx) = false :=
  ⟨rfl, rfl, rfl, by decide⟩

/-- C7 (amended): the query-result schema filter drops a result if and only
if the allowed-suffix set is non-empty AND it is not the one-element list
`["all"]` AND the result's metadata contains a `schema` key AND the
case-folded schema value ends with none of the allowed suffixes. All four
conjuncts of the iff are covered: a result whose metadata lacks a `schema`
key is never dropped whatever the allowed set; with the empty allowed set
no result is ever dropped, whatever its metadata; with the allowed set
`["all"]` no result is ever dropped, whatever its metadata; and when the
allowed set is non-empty, differs from `["all"]`, and a string `schema`
value is present, the result is dropped exactly when the case-folded value
ends with none of the allowed suffixes. -/
theorem c7_schema_filter :
    (∀ (allowed : List String) (meta : JVal), jHasKey meta "schema" = false →
      schemaKeep allowed meta = .ok true) ∧
    (∀ meta : JVal, schemaKeep [] meta = .ok true) ∧
    (∀ meta : JVal, schemaKeep ["all"] meta = .ok true) ∧
    (∀ (allowed : List String) (kvs : List (String × JVal)) (s : String),
      List.lookup "schema" kvs = some (.jstr s) →
      allowed.isEmpty = false → (allowed == ["all"]) = false →
      (schemaKeep allowed (.jdict kvs) = .ok false ↔
        allowed.any (fun sfx => strEndsWith (pyLower s) sfx) = false)) := by
  refine ⟨?_, ?_, ?_, ?_⟩
  · intro allowed meta h
    rw [schemaKeep]
    simp [h]
  · intro meta
    rfl
  · intro meta
    rfl
  · intro allowed kvs s hlook hne hall
    have hkvs : kvs.isEmpty = false := by
      cases kvs with
      | nil => simp [List.lookup] at hlook
      | cons a t => rfl
    have hkey : jHasKey (.jdict kvs) "schema" = true := by
      rw [jHasKey, hlook]
      rfl
    have htr : pyTruthy (.jdict kvs) = true := by
      simp [pyTruthy, hkvs]
    rw [schemaKeep]
    simp [hne, hall, htr, hkey, jGet, hlook]

/-- Witness for C7 (amended): the spec's own three-result example with
allowed suffixes `{"reporting"}` — the `"x.reporting"` result is kept, the
`"x.data_mart"` result is dropped, and the result lacking a `schema` key
is kept — plus the two never-drop regions at a metadata carrying a
non-matching `schema` key: the empty allowed set keeps it, and the allowed
set `["all"]` keeps it. -/
theorem c7_schema_filter_witness :
    (jHasKey (.jdict [("other", JVal.jstr "v")]) "schema" = false ∧
      schemaKeep ["reporting"] (.jdict [("other", JVal.jstr "v")]) = .ok true) ∧
    schemaKeep [] (.jdict [("schema", JVal.jstr "x.data_mart")]) = .ok true ∧
    schemaKeep ["all"] (.jdict [("schema", JVal.jstr "x.data_mart")]) = .ok true ∧
    (List.lookup "schema" [("schema", JVal.jstr "x.data_mart")] =
        some (JVal.jstr "x.data_mart") ∧
      schemaKeep ["reporting"] (.jdict [("schema", JVal.jstr "x.data_mart")]) = .ok false) ∧
    schemaKeep ["reporting"] (.jdict [("schema", JVal.jstr "x.reporting")]) = .ok true :=
  ⟨⟨rfl, c7_schema_filter.1 ["reporting"] (.jdict [("other", JVal.jstr "v")]) rfl⟩,
   c7_schema_filter.2.1 (.jdict [("schema", JVal.jstr "x.data_mart")]),
   c7_schema_filter.2.2.1 (.jdict [("schema", JVal.jstr "x.data_mart")]),
   ⟨rfl, (c7_schema_filter.2.2.2 ["reporting"] [("schema", JVal.jstr "x.data_mart")]
      "x.data_mart" rfl rfl rfl).mpr (by decide)⟩,
   rfl⟩
